import Mathlib

/-!
Shallow embedding of the Sparkify Airflow ELT WAP pipeline operators
(src/plugins/operators/data_quality.py, publish_production.py,
stage_redshift.py) and proofs of the spec claims about them.

The warehouse is modelled relationally: a table is a list of rows, a row an
association list from column names to SQL values (with an explicit NULL).
Each operator's `execute` is translated statement by statement from the SQL
it issues; a failure oracle `fails : Nat → Bool` says whether the n-th SQL
statement issued by a publish invocation fails at the warehouse (a failed
statement has no effect, per statement-level atomicity).
-/

namespace Sparkify

/-- A SQL value: NULL, an integer, or a string. -/
inductive Val
  | null
  | int (n : Int)
  | str (s : String)
deriving DecidableEq, Repr

/-- A row: association list from column name to value; a column absent from
the list reads as NULL. -/
abbrev Row := List (String × Val)

/-- Read a column of a row. -/
def Row.get (r : Row) (c : String) : Val :=
  match r.lookup c with
  | some v => v
  | none => Val.null

/-- A table is a list of rows (bag semantics, order kept for determinism). -/
abbrev Table := List Row

/-- SQL three-valued equality restricted to the contexts the operators use
(WHERE conditions): a comparison involving NULL is not TRUE, so the row does
not satisfy the condition. -/
def sqlEq : Val → Val → Bool
  | Val.null, _ => false
  | _, Val.null => false
  | a, b => decide (a = b)

namespace DataQualityOperator

/- Embeds src/plugins/operators/data_quality.py. The operator runs SELECT
COUNT queries against audit.{table}; here the table contents stand for
audit.{table} and each check computes the same count relationally. -/

/-- The values of column `c` down a table (the SQL column projection). -/
def colVals (t : Table) (c : String) : List Val :=
  t.map (fun r => Row.get r c)

/-- `_check_not_null`: SELECT COUNT(*) WHERE {column} IS NULL, fail if > 0. -/
def check_not_null (t : Table) (column : String) : Except String Unit :=
  if t.countP (fun r => decide (Row.get r column = Val.null)) > 0 then
    Except.error ("Data quality check failed: Column " ++ column ++
      " contains NULL values.")
  else
    Except.ok ()

/-- SQL COUNT({column}): counts the non-NULL values of the column. -/
def countCol (t : Table) (c : String) : Int :=
  ((colVals t c).filter (fun v => !decide (v = Val.null))).length

/-- SQL COUNT(DISTINCT {column}): counts the distinct non-NULL values. -/
def countDistinctCol (t : Table) (c : String) : Int :=
  ((colVals t c).filter (fun v => !decide (v = Val.null))).dedup.length

/-- `_check_unique`: SELECT COUNT({column}) - COUNT(DISTINCT {column}),
fail if > 0. -/
def check_unique (t : Table) (column : String) : Except String Unit :=
  if countCol t column - countDistinctCol t column > 0 then
    Except.error ("Data quality check failed: Column " ++ column ++
      " contains duplicate values.")
  else
    Except.ok ()

/-- `_check_greater_than_zero` counts rows WHERE {column} <= 0; a NULL (or
non-numeric) value does not satisfy the comparison. -/
def valLeZero : Val → Bool
  | Val.int n => decide (n ≤ 0)
  | _ => false

/-- `_check_greater_than_zero`: SELECT COUNT(*) WHERE {column} <= 0,
fail if > 0. -/
def check_greater_than_zero (t : Table) (column : String) : Except String Unit :=
  if t.countP (fun r => valLeZero (Row.get r column)) > 0 then
    Except.error ("Data quality check failed: Column " ++ column ++
      " contains values not greater than zero.")
  else
    Except.ok ()

/-- `_execute_check`: dispatch on the check type; an unknown check type
raises before any SQL for that pair runs. -/
def execute_check (t : Table) (check_type column : String) : Except String Unit :=
  if check_type = "not_null" then
    check_not_null t column
  else if check_type = "unique" then
    check_unique t column
  else if check_type = "greater_than_zero" then
    check_greater_than_zero t column
  else
    Except.error ("Unknown check type: " ++ check_type)

/-- Whether `_execute_check` dispatches into one of the three implemented
checks (so that a SQL count actually runs for the pair). -/
def isKnownKind (check_type : String) : Bool :=
  check_type = "not_null" || check_type = "unique" ||
    check_type = "greater_than_zero"

/-- The loop body of `execute`: run the (check_type, column) pairs in order,
recording which checks actually executed (issued their SQL) and stopping at
the first raised ValueError. Returns (executed pairs, first error if any). -/
def runChecks (t : Table) : List (String × String) → List (String × String) × Option String
  | [] => ([], none)
  | (ct, col) :: rest =>
    match execute_check t ct col with
    | Except.error e => (if isKnownKind ct then [(ct, col)] else [], some e)
    | Except.ok _ =>
      let res := runChecks t rest
      ((ct, col) :: res.1, res.2)

/-- The iteration order of `for check_type, columns in self.checks.items():
for column in columns:` — the dict preserves declaration order. -/
def checkPairs (checks : List (String × List String)) : List (String × String) :=
  (checks.map (fun p => p.2.map (fun col => (p.1, col)))).flatten

/-- `DataQualityOperator.execute`: iterate every (check type, column) pair
of the configured checks in declaration order. -/
def execute (t : Table) (checks : List (String × List String)) :
    List (String × String) × Option String :=
  runChecks t (checkPairs checks)

end DataQualityOperator

namespace PublishProductionOperator

/- Embeds src/plugins/operators/publish_production.py. The operator works on
one table name; the relevant warehouse state is the pair of that table's
contents in the audit (working) schema and in the prod schema. -/

/-- The warehouse state the publish operator touches: `audit.{table}` and
`prod.{table}`. -/
structure DB where
  audit : Table
  prod : Table
deriving DecidableEq, Repr

/-- Operator fields set in `__init__` (after `pk_columns = pk_columns or []`,
so an absent pk list is the empty list). -/
structure Op where
  table : String
  load_mode : String
  pk_columns : List String
deriving DecidableEq, Repr

/-- The EXISTS subquery of the merge delete: some audit row agrees with `r`
on every pk column (SQL equality, so NULL pk values never match). -/
def existsMatch (auditRows : Table) (pks : List String) (r : Row) : Bool :=
  auditRows.any (fun a => pks.all (fun c => sqlEq (Row.get r c) (Row.get a c)))

/-- The SQL statements `execute` can issue against the warehouse. -/
inductive Stmt
  | deletePartition (dwh_ds : String)
  | insertAuditToProd
  | truncateProd
  | deleteMerge (pk_columns : List String)
  | truncateAudit
  | countProd
deriving DecidableEq, Repr

/-- Effect of one successfully executed statement on the warehouse. -/
def Stmt.apply : Stmt → DB → DB
  | Stmt.deletePartition ds, db =>
    { db with prod := db.prod.filter (fun r => !sqlEq (Row.get r "dwh_ds") (Val.str ds)) }
  | Stmt.insertAuditToProd, db => { db with prod := db.prod ++ db.audit }
  | Stmt.truncateProd, db => { db with prod := [] }
  | Stmt.deleteMerge pks, db =>
    { db with prod := db.prod.filter (fun r => !existsMatch db.audit pks r) }
  | Stmt.truncateAudit, db => { db with audit := [] }
  | Stmt.countProd, db => db

/-- Why a publish invocation raised: a ValueError thrown by the operator
itself before issuing SQL, or a warehouse statement that failed. -/
inductive PubErr
  | config (msg : String)
  | sqlFail (idx : Nat) (stmt : Stmt)
deriving DecidableEq, Repr

/-- Result of a publish invocation, together with the warehouse state at
return (on `err`, the state when the exception propagated). -/
inductive PubOutcome
  | ok (db : DB)
  | err (e : PubErr) (db : DB)
deriving DecidableEq, Repr

/-- The warehouse state an outcome carries. -/
def PubOutcome.db : PubOutcome → DB
  | PubOutcome.ok d => d
  | PubOutcome.err _ d => d

/-- Run statements in order; the k-th issued statement fails iff `fails k`,
a failed statement has no effect and aborts the rest (the exception is
re-raised by the except block). -/
def runStmts (fails : Nat → Bool) : Nat → List Stmt → DB → PubOutcome
  | _, [], db => PubOutcome.ok db
  | k, s :: rest, db =>
    if fails k then PubOutcome.err (PubErr.sqlFail k s) db
    else runStmts fails (k + 1) rest (Stmt.apply s db)

/-- The mode dispatch of `execute` (lines 67-117): which statements the mode
issues, or the ValueError raised before any SQL runs. In the merge branch
`if not self.pk_columns` fires exactly on the empty list. -/
def publishStmts (op : Op) (dwh_ds : String) : Except String (List Stmt) :=
  if op.load_mode = "append" then
    Except.ok [Stmt.insertAuditToProd]
  else if op.load_mode = "partition_overwrite" then
    Except.ok [Stmt.deletePartition dwh_ds, Stmt.insertAuditToProd]
  else if op.load_mode = "full_refresh" then
    Except.ok [Stmt.truncateProd, Stmt.insertAuditToProd]
  else if op.load_mode = "merge" then
    if op.pk_columns = [] then
      Except.error ("MERGE mode requires pk_columns for table " ++ op.table)
    else
      Except.ok [Stmt.deleteMerge op.pk_columns, Stmt.insertAuditToProd]
  else
    Except.error ("Invalid load_mode " ++ op.load_mode ++ " for table " ++ op.table)

/-- `PublishProductionOperator.execute`: mode-specific statements, then
TRUNCATE of the audit table, then the final COUNT query — all inside one
try whose except re-raises the originating error. -/
def execute (op : Op) (dwh_ds : String) (fails : Nat → Bool) (db : DB) : PubOutcome :=
  match publishStmts op dwh_ds with
  | Except.error m => PubOutcome.err (PubErr.config m) db
  | Except.ok stmts => runStmts fails 0 (stmts ++ [Stmt.truncateAudit, Stmt.countProd]) db

/-- The statements the claim C4 calls publish steps: the mode table's
pre-step deletes/truncate and the insert step. -/
def Stmt.isPreOrInsert : Stmt → Bool
  | Stmt.deletePartition _ => true
  | Stmt.insertAuditToProd => true
  | Stmt.truncateProd => true
  | Stmt.deleteMerge _ => true
  | Stmt.truncateAudit => false
  | Stmt.countProd => false

end PublishProductionOperator

namespace StageToRedshiftOperator

/- Embeds src/plugins/operators/stage_redshift.py. The staging table's
contents stand for staging.{table}; the rows the COPY command brings in from
S3 are a parameter (external input). -/

/-- DATE(TIMESTAMP epoch + ts/1000 * INTERVAL 1 second): integer division of
the epoch-millisecond value by 1000 (SQL int division truncates toward
zero), then the day the resulting timestamp falls in (floor), as days since
the epoch. NULL (or non-numeric) ts yields NULL, which matches no date. -/
def tsDerivedDate : Val → Option Int
  | Val.int ts => some (Int.fdiv (Int.tdiv ts 1000) 86400)
  | _ => none

/-- The WHERE condition of the incremental delete: the date derived from the
row's ts column equals the execution date (given as days since epoch). -/
def tsMatchesDate (r : Row) (ds_days : Int) : Bool :=
  match tsDerivedDate (Row.get r "ts") with
  | some d => decide (d = ds_days)
  | none => false

/-- `StageToRedshiftOperator.execute`: if `delete_by_date`, DELETE staging
rows whose derived date equals the execution date, else TRUNCATE the whole
staging table; then COPY the S3 rows in. -/
def execute (delete_by_date : Bool) (ds_days : Int) (s3Rows : Table)
    (staging : Table) : Table :=
  let afterDelete :=
    if delete_by_date then staging.filter (fun r => !tsMatchesDate r ds_days)
    else []
  afterDelete ++ s3Rows

end StageToRedshiftOperator

/-! ## Theorems -/

/-- Helper: deduplication keeps the length exactly when the list already has
no duplicates. -/
theorem dedup_length_eq_iff {α : Type} [DecidableEq α] (l : List α) :
    l.dedup.length = l.length ↔ l.Nodup := by
  constructor
  · intro h
    have heq : l.dedup = l := (List.dedup_sublist l).eq_of_length h
    rw [← heq]
    exact List.nodup_dedup l
  · intro h
    rw [List.dedup_eq_self.mpr h]

/-- Claim C1: a publish invocation in merge mode with an empty (or absent)
primary-key list raises the ValueError before issuing any SQL, and the
warehouse state — both prod and the working (audit) table — is returned
exactly as it was. -/
theorem publish_merge_empty_pk_raises_before_sql
    (op : PublishProductionOperator.Op) (dwh_ds : String) (fails : Nat → Bool)
    (db : PublishProductionOperator.DB)
    (hmode : op.load_mode = "merge") (hpk : op.pk_columns = []) :
    PublishProductionOperator.execute op dwh_ds fails db =
      PublishProductionOperator.PubOutcome.err
        (PublishProductionOperator.PubErr.config
          ("MERGE mode requires pk_columns for table " ++ op.table)) db := by
  simp [PublishProductionOperator.execute, PublishProductionOperator.publishStmts,
    hmode, hpk]

/-- Witness for C1 at a concrete invocation. -/
theorem publish_merge_empty_pk_raises_before_sql_witness :
    PublishProductionOperator.execute ⟨"dim_users", "merge", []⟩ "2024-01-15"
        (fun _ => false) ⟨[[("user_id", Val.int 7)]], []⟩ =
      PublishProductionOperator.PubOutcome.err
        (PublishProductionOperator.PubErr.config
          ("MERGE mode requires pk_columns for table " ++ "dim_users"))
        ⟨[[("user_id", Val.int 7)]], []⟩ :=
  publish_merge_empty_pk_raises_before_sql ⟨"dim_users", "merge", []⟩ "2024-01-15"
    (fun _ => false) ⟨[[("user_id", Val.int 7)]], []⟩ rfl rfl

/-- Claim C5: the unique check fails exactly when COUNT(col) minus
COUNT(DISTINCT col) is positive, and — by SQL null semantics — it passes
exactly when the non-NULL values of the column are pairwise distinct, so
multiple NULLs alone never fail the check. -/
theorem check_unique_iff_duplicates (t : Table) (c : String) :
    ((DataQualityOperator.check_unique t c ≠ Except.ok ()) ↔
      DataQualityOperator.countCol t c - DataQualityOperator.countDistinctCol t c > 0)
    ∧ ((DataQualityOperator.check_unique t c = Except.ok ()) ↔
      ((DataQualityOperator.colVals t c).filter
        (fun v => !decide (v = Val.null))).Nodup) := by
  constructor
  · unfold DataQualityOperator.check_unique
    split
    · next h => simp [h]
    · next h => simpa using h
  · unfold DataQualityOperator.check_unique
    set l := (DataQualityOperator.colVals t c).filter (fun v => !decide (v = Val.null))
    have hlen : l.dedup.length ≤ l.length := (List.dedup_sublist l).length_le
    have hcount : DataQualityOperator.countCol t c = (l.length : Int) := rfl
    have hdist : DataQualityOperator.countDistinctCol t c = (l.dedup.length : Int) := rfl
    split
    · next h =>
      rw [hcount, hdist] at h
      constructor
      · intro habs
        exact absurd habs (by simp)
      · intro hnodup
        exfalso
        rw [← dedup_length_eq_iff l] at hnodup
        omega
    · next h =>
      rw [hcount, hdist] at h
      have : l.dedup.length = l.length := by omega
      simp [dedup_length_eq_iff l |>.mp this]

/-- Claim C6: the not_null check fails exactly when some row has the column
NULL, and over an empty working table it passes. -/
theorem check_not_null_iff_null_row (t : Table) (c : String) :
    ((DataQualityOperator.check_not_null t c ≠ Except.ok ()) ↔
      ∃ r ∈ t, Row.get r c = Val.null)
    ∧ DataQualityOperator.check_not_null ([] : Table) c = Except.ok () := by
  constructor
  · unfold DataQualityOperator.check_not_null
    split
    · next h =>
      simp only [List.countP_pos_iff] at h
      simpa using h
    · next h =>
      simp only [gt_iff_lt, Nat.not_lt, Nat.le_zero, List.countP_eq_zero] at h
      simpa using h
  · rfl

/-- Helper: an unknown check type makes `_execute_check` raise the
"Unknown check type" ValueError. -/
theorem execute_check_unknown (t : Table) (ct col : String)
    (h : DataQualityOperator.isKnownKind ct = false) :
    DataQualityOperator.execute_check t ct col =
      Except.error ("Unknown check type: " ++ ct) := by
  unfold DataQualityOperator.isKnownKind at h
  simp only [Bool.or_eq_false_iff, decide_eq_false_iff_not] at h
  obtain ⟨⟨h1, h2⟩, h3⟩ := h
  unfold DataQualityOperator.execute_check
  simp [h1, h2, h3]

/-- Helper: the check loop, run over pairs that all pass followed by a
failing pair, executes exactly the passing pairs (plus the failing check if
its kind is known, since its SQL ran) and reports the failing pair's error. -/
theorem runChecks_first_error (t : Table) (ct col e : String)
    (pairs2 pairs1 : List (String × String))
    (hpass : ∀ p ∈ pairs1, DataQualityOperator.execute_check t p.1 p.2 = Except.ok ())
    (hfail : DataQualityOperator.execute_check t ct col = Except.error e) :
    DataQualityOperator.runChecks t (pairs1 ++ (ct, col) :: pairs2) =
      (pairs1 ++ (if DataQualityOperator.isKnownKind ct then [(ct, col)] else []),
        some e) := by
  induction pairs1 with
  | nil =>
    simp only [List.nil_append]
    unfold DataQualityOperator.runChecks
    rw [hfail]
  | cons p rest ih =>
    obtain ⟨ct1, col1⟩ := p
    have hp : DataQualityOperator.execute_check t ct1 col1 = Except.ok () :=
      hpass (ct1, col1) (List.mem_cons_self _ _)
    have hrest : ∀ p ∈ rest, DataQualityOperator.execute_check t p.1 p.2 = Except.ok () :=
      fun p hp2 => hpass p (List.mem_cons_of_mem _ hp2)
    simp only [List.cons_append]
    unfold DataQualityOperator.runChecks
    rw [hp, ih hrest]

/-- Helper: when every pair's check passes, the loop executes all of them
and reports no error. -/
theorem runChecks_all_pass (t : Table) (pairs : List (String × String))
    (h : ∀ p ∈ pairs, DataQualityOperator.execute_check t p.1 p.2 = Except.ok ()) :
    DataQualityOperator.runChecks t pairs = (pairs, none) := by
  induction pairs with
  | nil => rfl
  | cons p rest ih =>
    obtain ⟨ct1, col1⟩ := p
    have hp : DataQualityOperator.execute_check t ct1 col1 = Except.ok () :=
      h (ct1, col1) (List.mem_cons_self _ _)
    have hrest : ∀ p ∈ rest, DataQualityOperator.execute_check t p.1 p.2 = Except.ok () :=
      fun p hp2 => h p (List.mem_cons_of_mem _ hp2)
    unfold DataQualityOperator.runChecks
    rw [hp, ih hrest]

/-- Helper: each of the three implemented checks passes over an empty table
(every SELECT COUNT is zero). -/
theorem execute_check_empty_ok (ct col : String)
    (h : DataQualityOperator.isKnownKind ct = true) :
    DataQualityOperator.execute_check ([] : Table) ct col = Except.ok () := by
  unfold DataQualityOperator.isKnownKind at h
  simp only [Bool.or_eq_true, decide_eq_true_eq] at h
  rcases h with (h | h) | h <;> subst h <;> rfl

/-- Counterexample to claim C7: with checks declared as not_null on a before
an unknown kind, the not_null check executes (its SQL runs) before the
"Unknown check type" ValueError is raised — the error is not raised before
any check of the set executes. -/
theorem unknown_kind_not_failfast_counterexample :
    (DataQualityOperator.execute [[("a", Val.int 1)]]
        [("not_null", ["a"]), ("bogus", ["a"])]).2 =
      some ("Unknown check type: " ++ "bogus")
    ∧ (DataQualityOperator.execute [[("a", Val.int 1)]]
        [("not_null", ["a"]), ("bogus", ["a"])]).1 = [("not_null", "a")] := by
  constructor <;> rfl

/-- Claim C7 (amended): an unknown check kind raises the "Unknown check
type" ValueError when the iteration reaches it — checks declared before it
have already executed (and passed), the unknown check itself issues no SQL,
and no later check runs; the error message differs from a data-quality
failure's. -/
theorem unknown_kind_raises_at_iteration (t : Table)
    (checks : List (String × List String)) (pairs1 pairs2 : List (String × String))
    (ct col : String)
    (hdecl : DataQualityOperator.checkPairs checks = pairs1 ++ (ct, col) :: pairs2)
    (hunknown : DataQualityOperator.isKnownKind ct = false)
    (hpass : ∀ p ∈ pairs1, DataQualityOperator.execute_check t p.1 p.2 = Except.ok ()) :
    DataQualityOperator.execute t checks =
      (pairs1, some ("Unknown check type: " ++ ct)) := by
  unfold DataQualityOperator.execute
  rw [hdecl, runChecks_first_error t ct col _ pairs2 pairs1 hpass
    (execute_check_unknown t ct col hunknown)]
  simp [hunknown]

/-- Witness for the amended C7 at a concrete check set. -/
theorem unknown_kind_raises_at_iteration_witness :
    DataQualityOperator.execute [[("a", Val.int 1)]]
        [("not_null", ["a"]), ("bogus", ["a"])] =
      ([("not_null", "a")], some ("Unknown check type: " ++ "bogus")) :=
  unknown_kind_raises_at_iteration [[("a", Val.int 1)]]
    [("not_null", ["a"]), ("bogus", ["a"])] [("not_null", "a")] [] "bogus" "a"
    rfl rfl
    (by
      intro p hp
      rw [List.mem_singleton] at hp
      subst hp
      rfl)

/-- Counterexample to claim C8: over the empty working table, an audit with
a not_null, a unique and a greater_than_zero check runs all three and
raises nothing — an empty table passes the audit, it is not a hard failure. -/
theorem empty_table_audit_passes_counterexample :
    DataQualityOperator.execute ([] : Table)
        [("not_null", ["a"]), ("unique", ["b"]), ("greater_than_zero", ["c"])] =
      ([("not_null", "a"), ("unique", "b"), ("greater_than_zero", "c")], none) := by
  rfl

/-- Claim C8 (amended): over an empty working table, every CheckSpec whose
kinds are among the three implemented ones passes in full: all checks
execute and no error is raised (zero rows is an implicit pass). -/
theorem empty_table_audit_all_pass (checks : List (String × List String))
    (h : ∀ p ∈ DataQualityOperator.checkPairs checks,
      DataQualityOperator.isKnownKind p.1 = true) :
    DataQualityOperator.execute ([] : Table) checks =
      (DataQualityOperator.checkPairs checks, none) := by
  unfold DataQualityOperator.execute
  exact runChecks_all_pass ([] : Table) (DataQualityOperator.checkPairs checks)
    (fun p hp => execute_check_empty_ok p.1 p.2 (h p hp))

/-- Witness for the amended C8 at a concrete check set. -/
theorem empty_table_audit_all_pass_witness :
    DataQualityOperator.execute ([] : Table)
        [("not_null", ["user_id"]), ("unique", ["user_id"])] =
      ([("not_null", "user_id"), ("unique", "user_id")], none) :=
  empty_table_audit_all_pass [("not_null", ["user_id"]), ("unique", ["user_id"])]
    (by
      intro p hp
      have hpairs : DataQualityOperator.checkPairs
          [("not_null", ["user_id"]), ("unique", ["user_id"])] =
          [("not_null", "user_id"), ("unique", "user_id")] := rfl
      rw [hpairs] at hp
      simp only [List.mem_cons, List.not_mem_nil, or_false] at hp
      rcases hp with h1 | h1 <;> subst h1 <;> rfl)

/-- Claim C10: the audit iterates the (check kind, column) pairs in
declaration order and short-circuits at the first failing check: exactly the
pairs before it (plus the failing check itself when its kind is known, since
its SQL ran) execute, no later pair runs, and only the first failure is
reported. -/
theorem audit_short_circuits_on_first_failure (t : Table)
    (checks : List (String × List String)) (pairs1 pairs2 : List (String × String))
    (ct col e : String)
    (hdecl : DataQualityOperator.checkPairs checks = pairs1 ++ (ct, col) :: pairs2)
    (hpass : ∀ p ∈ pairs1, DataQualityOperator.execute_check t p.1 p.2 = Except.ok ())
    (hfail : DataQualityOperator.execute_check t ct col = Except.error e) :
    DataQualityOperator.execute t checks =
      (pairs1 ++ (if DataQualityOperator.isKnownKind ct then [(ct, col)] else []),
        some e) := by
  unfold DataQualityOperator.execute
  rw [hdecl]
  exact runChecks_first_error t ct col e pairs2 pairs1 hpass hfail

/-- Witness for C10: greater_than_zero on a NULL value passes, the not_null
check then fails, and the unique check declared after it never runs. -/
theorem audit_short_circuits_on_first_failure_witness :
    DataQualityOperator.execute [[("a", Val.null)]]
        [("greater_than_zero", ["a"]), ("not_null", ["a"]), ("unique", ["a"])] =
      ([("greater_than_zero", "a")] ++
          (if DataQualityOperator.isKnownKind "not_null" then [("not_null", "a")] else []),
        some ("Data quality check failed: Column " ++ "a" ++
          " contains NULL values.")) :=
  audit_short_circuits_on_first_failure [[("a", Val.null)]]
    [("greater_than_zero", ["a"]), ("not_null", ["a"]), ("unique", ["a"])]
    [("greater_than_zero", "a")] [("unique", "a")] "not_null" "a"
    ("Data quality check failed: Column " ++ "a" ++ " contains NULL values.")
    rfl
    (by
      intro p hp
      rw [List.mem_singleton] at hp
      subst hp
      rfl)
    rfl

/-- Helper: SQL equality is reflexive on non-NULL values. -/
theorem sqlEq_self (v : Val) (h : v ≠ Val.null) : sqlEq v v = true := by
  cases v with
  | null => exact absurd rfl h
  | int n => simp [sqlEq]
  | str s => simp [sqlEq]

namespace PublishProductionOperator

/-- Helper: a row of the working table whose pk values are non-NULL matches
itself in the merge EXISTS subquery. -/
theorem existsMatch_self (A : Table) (pks : List String) (a : Row) (ha : a ∈ A)
    (h : ∀ c ∈ pks, Row.get a c ≠ Val.null) :
    existsMatch A pks a = true := by
  unfold existsMatch
  rw [List.any_eq_true]
  refine ⟨a, ha, ?_⟩
  rw [List.all_eq_true]
  intro c hc
  exact sqlEq_self (Row.get a c) (h c hc)

/-- Helper: one step of the statement runner. -/
theorem runStmts_cons (fails : Nat → Bool) (k : Nat) (s : Stmt) (rest : List Stmt)
    (db : DB) :
    runStmts fails k (s :: rest) db =
      if fails k then PubOutcome.err (PubErr.sqlFail k s) db
      else runStmts fails (k + 1) rest (Stmt.apply s db) := rfl

/-- Helper: a failure-free merge publish with a non-empty pk list deletes
the pk-matching prod rows, inserts the working rows, and truncates the
working table. -/
theorem publish_merge_ok (tb ds : String) (pks : List String) (A prod0 : Table)
    (hpks : ¬pks = []) :
    execute ⟨tb, "merge", pks⟩ ds (fun _ => false) ⟨A, prod0⟩ =
      PubOutcome.ok ⟨[], prod0.filter (fun r => !existsMatch A pks r) ++ A⟩ := by
  unfold execute publishStmts
  simp [hpks, runStmts, Stmt.apply]

/-- Helper: a failure-free partition_overwrite publish deletes the prod rows
whose dwh_ds equals the run date, inserts the working rows, and truncates
the working table. -/
theorem publish_partition_overwrite_ok (tb ds : String) (pks : List String)
    (A prod0 : Table) :
    execute ⟨tb, "partition_overwrite", pks⟩ ds (fun _ => false) ⟨A, prod0⟩ =
      PubOutcome.ok
        ⟨[], prod0.filter (fun r => !sqlEq (Row.get r "dwh_ds") (Val.str ds)) ++ A⟩ := by
  unfold execute publishStmts
  simp [runStmts, Stmt.apply]

/-- Claim C2: merge publish is idempotent — with the same working-table
contents (whose pk columns are non-NULL) and the same non-empty pk list,
publishing twice leaves the production table exactly as publishing once. -/
theorem publish_merge_idempotent (tb ds : String) (pks : List String)
    (A prod0 : Table) (hpks : ¬pks = [])
    (hA : ∀ r ∈ A, ∀ c ∈ pks, Row.get r c ≠ Val.null) :
    (execute ⟨tb, "merge", pks⟩ ds (fun _ => false)
        ⟨A, (execute ⟨tb, "merge", pks⟩ ds (fun _ => false) ⟨A, prod0⟩).db.prod⟩).db.prod =
      (execute ⟨tb, "merge", pks⟩ ds (fun _ => false) ⟨A, prod0⟩).db.prod := by
  rw [publish_merge_ok tb ds pks A prod0 hpks]
  simp only [PubOutcome.db]
  rw [publish_merge_ok tb ds pks A _ hpks]
  simp only [PubOutcome.db]
  rw [List.filter_append, List.filter_filter]
  have hAnil : A.filter (fun r => !existsMatch A pks r) = [] := by
    rw [List.filter_eq_nil_iff]
    intro a ha
    simp [existsMatch_self A pks a ha (hA a ha)]
  rw [hAnil, List.append_nil]
  congr 1
  apply List.filter_congr
  intro a _
  rw [Bool.and_self]

/-- Claim C3: partition_overwrite publish for run date D touches only the
D-tagged production rows — when every working row is tagged D, the
production rows tagged any other date survive unchanged, in order and
multiplicity. -/
theorem publish_partition_overwrite_frame (tb ds d2 : String) (pks : List String)
    (A prod0 : Table) (hne : d2 ≠ ds)
    (hA : ∀ r ∈ A, Row.get r "dwh_ds" = Val.str ds) :
    ((execute ⟨tb, "partition_overwrite", pks⟩ ds (fun _ => false)
        ⟨A, prod0⟩).db.prod.filter
          (fun r => decide (Row.get r "dwh_ds" = Val.str d2))) =
      prod0.filter (fun r => decide (Row.get r "dwh_ds" = Val.str d2)) := by
  rw [publish_partition_overwrite_ok]
  simp only [PubOutcome.db]
  rw [List.filter_append, List.filter_filter]
  have hAnil : A.filter (fun r => decide (Row.get r "dwh_ds" = Val.str d2)) = [] := by
    rw [List.filter_eq_nil_iff]
    intro a ha
    rw [hA a ha]
    simp only [decide_eq_true_eq, Val.str.injEq]
    exact fun h => hne h.symm
  rw [hAnil, List.append_nil]
  apply List.filter_congr
  intro a _
  by_cases hq : Row.get a "dwh_ds" = Val.str d2
  · have hp : sqlEq (Val.str d2) (Val.str ds) = false := by
      simp [sqlEq, hne]
    simp [hq, hp]
  · simp [hq]

/-- Helper: every statement of a mode's pre/insert sequence is a pre-step
delete/truncate or the insert; the audit truncate and final count are
appended after them by `execute`. -/
theorem publishStmts_preinsert (op : Op) (ds : String) (stmts : List Stmt)
    (h : publishStmts op ds = Except.ok stmts) (st : Stmt) (hst : st ∈ stmts) :
    st.isPreOrInsert = true := by
  unfold publishStmts at h
  split at h
  · cases h
    simp only [List.mem_singleton] at hst
    subst hst
    rfl
  · split at h
    · cases h
      simp only [List.mem_cons, List.not_mem_nil, or_false] at hst
      rcases hst with h1 | h1 <;> subst h1 <;> rfl
    · split at h
      · cases h
        simp only [List.mem_cons, List.not_mem_nil, or_false] at hst
        rcases hst with h1 | h1 <;> subst h1 <;> rfl
      · split at h
        · split at h
          · simp at h
          · cases h
            simp only [List.mem_cons, List.not_mem_nil, or_false] at hst
            rcases hst with h1 | h1 <;> subst h1 <;> rfl
        · simp at h

/-- Helper: a statement that is a pre-step or the insert never touches the
working (audit) table. -/
theorem apply_preinsert_audit (s : Stmt) (d : DB) (h : s.isPreOrInsert = true) :
    (Stmt.apply s d).audit = d.audit := by
  cases s <;> simp [Stmt.apply, Stmt.isPreOrInsert] at h ⊢

/-- Helper: if running pre/insert statements followed by the audit truncate
and the count fails at a pre/insert statement, the audit table is untouched,
the failing statement is the k-th, and every earlier statement succeeded. -/
theorem runStmts_preinsert_err_audit (fails : Nat → Bool) (M : List Stmt) :
    ∀ (k0 : Nat) (db db2 : DB) (k : Nat) (s : Stmt),
      (∀ st ∈ M, st.isPreOrInsert = true) →
      runStmts fails k0 (M ++ [Stmt.truncateAudit, Stmt.countProd]) db =
        PubOutcome.err (PubErr.sqlFail k s) db2 →
      s.isPreOrInsert = true →
      db2.audit = db.audit ∧ fails k = true ∧
        ∀ j, k0 ≤ j → j < k → fails j = false := by
  induction M with
  | nil =>
    intro k0 db db2 k s _ h hs
    simp only [List.nil_append] at h
    rw [runStmts_cons] at h
    by_cases h0 : fails k0 = true
    · rw [if_pos h0] at h
      simp only [PubOutcome.err.injEq, PubErr.sqlFail.injEq] at h
      obtain ⟨⟨_, hst⟩, _⟩ := h
      rw [← hst] at hs
      simp [Stmt.isPreOrInsert] at hs
    · rw [if_neg h0] at h
      rw [runStmts_cons] at h
      by_cases h1 : fails (k0 + 1) = true
      · rw [if_pos h1] at h
        simp only [PubOutcome.err.injEq, PubErr.sqlFail.injEq] at h
        obtain ⟨⟨_, hst⟩, _⟩ := h
        rw [← hst] at hs
        simp [Stmt.isPreOrInsert] at hs
      · rw [if_neg h1] at h
        simp [runStmts] at h
  | cons m M ih =>
    intro k0 db db2 k s hM h hs
    simp only [List.cons_append] at h
    rw [runStmts_cons] at h
    by_cases h0 : fails k0 = true
    · rw [if_pos h0] at h
      simp only [PubOutcome.err.injEq, PubErr.sqlFail.injEq] at h
      obtain ⟨⟨hk, _⟩, hdb⟩ := h
      subst hk
      refine ⟨by rw [← hdb], h0, ?_⟩
      intro j hj1 hj2
      omega
    · rw [if_neg h0] at h
      have hM2 : ∀ st ∈ M, st.isPreOrInsert = true :=
        fun st hst => hM st (List.mem_cons_of_mem m hst)
      obtain ⟨haud, hfk, hrest⟩ :=
        ih (k0 + 1) (Stmt.apply m db) db2 k s hM2 h hs
      refine ⟨?_, hfk, ?_⟩
      · rw [haud, apply_preinsert_audit m db (hM m (List.mem_cons_self m M))]
      · intro j hj1 hj2
        by_cases hjk : j = k0
        · subst hjk
          simp only [Bool.not_eq_true] at h0
          exact h0
        · exact hrest j (by omega) hj2

/-- Claim C4: for every load mode, when a publish step — a mode's pre-step
delete/truncate or the insert — fails at the warehouse, the operator runs no
later statement, re-raises that originating error (the k-th statement
failed, all earlier ones succeeded), and the working (audit) table is left
exactly as it was when publish started. -/
theorem publish_step_failure_preserves_audit (op : Op) (ds : String)
    (fails : Nat → Bool) (db db2 : DB) (k : Nat) (s : Stmt)
    (h : execute op ds fails db = PubOutcome.err (PubErr.sqlFail k s) db2)
    (hs : s.isPreOrInsert = true) :
    db2.audit = db.audit ∧ fails k = true ∧ ∀ j < k, fails j = false := by
  unfold execute at h
  rcases hstmts : publishStmts op ds with m | stmts
  · rw [hstmts] at h
    simp at h
  · rw [hstmts] at h
    obtain ⟨haud, hfk, hrest⟩ := runStmts_preinsert_err_audit fails stmts 0 db db2 k s
      (fun st hst => publishStmts_preinsert op ds stmts hstmts st hst) h hs
    exact ⟨haud, hfk, fun j hj => hrest j (Nat.zero_le j) hj⟩

/-- Witness for C2 at a concrete overlap between working and prod rows. -/
theorem publish_merge_idempotent_witness :
    (execute ⟨"dim_users", "merge", ["user_id"]⟩ "2024-01-15" (fun _ => false)
        ⟨[[("user_id", Val.int 1)]],
          (execute ⟨"dim_users", "merge", ["user_id"]⟩ "2024-01-15" (fun _ => false)
              ⟨[[("user_id", Val.int 1)]],
                [[("user_id", Val.int 1)], [("user_id", Val.int 2)]]⟩).db.prod⟩).db.prod =
      (execute ⟨"dim_users", "merge", ["user_id"]⟩ "2024-01-15" (fun _ => false)
          ⟨[[("user_id", Val.int 1)]],
            [[("user_id", Val.int 1)], [("user_id", Val.int 2)]]⟩).db.prod :=
  publish_merge_idempotent "dim_users" "2024-01-15" ["user_id"]
    [[("user_id", Val.int 1)]] [[("user_id", Val.int 1)], [("user_id", Val.int 2)]]
    (by decide)
    (by
      intro r hr c hc
      rw [List.mem_singleton] at hr hc
      subst hr
      subst hc
      decide)

/-- Witness for C3: a prod row tagged 2024-01-14 survives a
partition_overwrite publish for 2024-01-15 unchanged. -/
theorem publish_partition_overwrite_frame_witness :
    ((execute ⟨"fct_songplays", "partition_overwrite", []⟩ "2024-01-15"
        (fun _ => false)
        ⟨[[("dwh_ds", Val.str "2024-01-15")]],
          [[("dwh_ds", Val.str "2024-01-14")],
            [("dwh_ds", Val.str "2024-01-15")]]⟩).db.prod.filter
          (fun r => decide (Row.get r "dwh_ds" = Val.str "2024-01-14"))) =
      List.filter (fun r => decide (Row.get r "dwh_ds" = Val.str "2024-01-14"))
        [[("dwh_ds", Val.str "2024-01-14")], [("dwh_ds", Val.str "2024-01-15")]] :=
  publish_partition_overwrite_frame "fct_songplays" "2024-01-15" "2024-01-14" []
    [[("dwh_ds", Val.str "2024-01-15")]]
    [[("dwh_ds", Val.str "2024-01-14")], [("dwh_ds", Val.str "2024-01-15")]]
    (by decide)
    (by
      intro r hr
      rw [List.mem_singleton] at hr
      subst hr
      rfl)

/-- Witness for C4: the insert of an append publish fails at statement 0 and
the working table is untouched. -/
theorem publish_step_failure_preserves_audit_witness :
    (⟨[[("x", Val.int 1)]], []⟩ : DB).audit = (⟨[[("x", Val.int 1)]], []⟩ : DB).audit
    ∧ (fun k => decide (k = 0)) 0 = true
    ∧ ∀ j < 0, (fun k => decide (k = 0)) j = false :=
  publish_step_failure_preserves_audit ⟨"fct_songplays", "append", []⟩ "2024-01-15"
    (fun k => decide (k = 0)) ⟨[[("x", Val.int 1)]], []⟩ ⟨[[("x", Val.int 1)]], []⟩ 0
    Stmt.insertAuditToProd rfl rfl

end PublishProductionOperator

namespace StageToRedshiftOperator

/-- Claim C9: with delete_by_date (incremental) staging, the run first
deletes exactly the staging rows whose ts-derived date equals the run date
and then appends the copied rows; staging rows carrying any other derived
date survive unchanged; without delete_by_date the whole staging table is
truncated before the copy. -/
theorem stage_incremental_scopes_delete_to_run_date (ds_days d2 : Int)
    (s3Rows staging : Table)
    (hs3 : ∀ r ∈ s3Rows, tsDerivedDate (Row.get r "ts") = some ds_days)
    (hd2 : d2 ≠ ds_days) :
    (execute true ds_days s3Rows staging =
        staging.filter (fun r => !tsMatchesDate r ds_days) ++ s3Rows)
    ∧ ((execute true ds_days s3Rows staging).filter
          (fun r => decide (tsDerivedDate (Row.get r "ts") = some d2)) =
        staging.filter (fun r => decide (tsDerivedDate (Row.get r "ts") = some d2)))
    ∧ execute false ds_days s3Rows staging = s3Rows := by
  refine ⟨rfl, ?_, rfl⟩
  show (staging.filter (fun r => !tsMatchesDate r ds_days) ++ s3Rows).filter
      (fun r => decide (tsDerivedDate (Row.get r "ts") = some d2)) = _
  rw [List.filter_append, List.filter_filter]
  have hs3nil : s3Rows.filter
      (fun r => decide (tsDerivedDate (Row.get r "ts") = some d2)) = [] := by
    rw [List.filter_eq_nil_iff]
    intro r hr
    rw [hs3 r hr]
    simp only [decide_eq_true_eq, Option.some.injEq]
    exact fun h => hd2 h.symm
  rw [hs3nil, List.append_nil]
  apply List.filter_congr
  intro r _
  by_cases hq : tsDerivedDate (Row.get r "ts") = some d2
  · have hm : tsMatchesDate r ds_days = false := by
      unfold tsMatchesDate
      rw [hq]
      simp [hd2]
    simp [hq, hm]
  · simp [hq]

/-- Witness for C9 at a two-day staging table (epoch days 0 and 1). -/
theorem stage_incremental_scopes_delete_to_run_date_witness :
    (execute true 1 [[("ts", Val.int 86400000)]]
        [[("ts", Val.int 0)], [("ts", Val.int 86400000)]] =
      List.filter (fun r => !tsMatchesDate r 1)
          [[("ts", Val.int 0)], [("ts", Val.int 86400000)]] ++
        [[("ts", Val.int 86400000)]])
    ∧ ((execute true 1 [[("ts", Val.int 86400000)]]
          [[("ts", Val.int 0)], [("ts", Val.int 86400000)]]).filter
          (fun r => decide (tsDerivedDate (Row.get r "ts") = some 0)) =
        List.filter (fun r => decide (tsDerivedDate (Row.get r "ts") = some 0))
          [[("ts", Val.int 0)], [("ts", Val.int 86400000)]])
    ∧ execute false 1 [[("ts", Val.int 86400000)]]
        [[("ts", Val.int 0)], [("ts", Val.int 86400000)]] =
      [[("ts", Val.int 86400000)]] :=
  stage_incremental_scopes_delete_to_run_date 1 0 [[("ts", Val.int 86400000)]]
    [[("ts", Val.int 0)], [("ts", Val.int 86400000)]]
    (by
      intro r hr
      rw [List.mem_singleton] at hr
      subst hr
      rfl)
    (by decide)

end StageToRedshiftOperator

end Sparkify
